import Mathlib

/-!
Verification development for the hit-counter HTTP service (`app/main.py`).

The service keeps an in-memory registry `pages_data : dict[int, Page]` of
pages with hit counters, plus Prometheus-style metrics.  We embed the page
records, the initial registry contents, the four JSON handlers
(`create_page`, `get_pages`, `get_hits`, `increment_hit`), the request
middleware's correlation-id and endpoint-label computations, and the
`page_hits_total` counter, as executable Lean functions.

A Python dict keyed by `int` with string-free values is embedded as a list
of `Page` records in insertion order; dict assignment `d[k] = v` replaces
in place when the key exists (keeping its position) and appends otherwise.
Timestamps (`datetime.now()` / `time.time()`) are passed in explicitly as
abstract values.
-/

namespace HitCounter

/-- A page record, as built at `main.py` lines 26-42 and 99-104:
`{"id": ..., "name": ..., "hits": ..., "created_at": ...}`.
`created_at` is an abstract timestamp. -/
structure Page where
  id : Nat
  name : String
  hits : Nat
  created_at : Nat
  deriving Repr, DecidableEq

/-- Python dict assignment `pages_data[k] = v`, keyed by the page id:
replace in place if the key is present, append otherwise. -/
def dictInsert (store : List Page) (p : Page) : List Page :=
  if store.any (fun q => q.id == p.id) then
    store.map (fun q => if q.id == p.id then p else q)
  else
    store ++ [p]

/-- Python dict lookup `pages_data[pid]` / membership `pid in pages_data`,
as an option-valued find on the id key. -/
def findPage (store : List Page) (pid : Nat) : Option Page :=
  store.find? (fun q => q.id == pid)

/-- The module-level `pages_data` initializer (`main.py` lines 26-42):
fifteen pre-populated pages with ids 1..15, each stamped with the startup
time `t0`. -/
def pages_data (t0 : Nat) : List Page :=
  [ ⟨1, "Home page", 4850, t0⟩,
    ⟨2, "Login / Sign up", 1320, t0⟩,
    ⟨3, "Shop / Products listing", 2940, t0⟩,
    ⟨4, "Product details page", 6780, t0⟩,
    ⟨5, "Search results page", 1150, t0⟩,
    ⟨6, "Cart page", 620, t0⟩,
    ⟨7, "Checkout page", 310, t0⟩,
    ⟨8, "Payment page", 245, t0⟩,
    ⟨9, "Order confirmation page", 230, t0⟩,
    ⟨10, "User profile / Account", 410, t0⟩,
    ⟨11, "Wishlist / Favorites", 180, t0⟩,
    ⟨12, "About us", 260, t0⟩,
    ⟨13, "Contact us", 140, t0⟩,
    ⟨14, "FAQ / Help", 195, t0⟩,
    ⟨15, "Admin dashboard", 85, t0⟩ ]

/-- JSON response bodies produced by the handlers. -/
inductive RespBody where
  | errorMsg (msg : String)
  | pageJson (p : Page)
  | hitsJson (n : Nat)
  | pageList (l : List Page)
  deriving Repr, DecidableEq

/-- Result of a handler that may mutate the store. -/
structure StoreResult where
  status : Nat
  body : RespBody
  store : List Page
  deriving Repr, DecidableEq

/-- A `page_hits_total` metric state: one counter value per `page_name`
label, in series-creation order. -/
abbrev HitSeries := List (String × Nat)

/-- `Counter.labels(page_name=...).inc()`: bump the series for the label,
creating it (at 1) on first use. -/
def counterInc (m : HitSeries) (label : String) : HitSeries :=
  if m.any (fun s => s.1 == label) then
    m.map (fun s => if s.1 == label then (s.1, s.2 + 1) else s)
  else
    m ++ [(label, 1)]

/-- Result of `increment_hit`: a `StoreResult` plus the `page_hits_total`
state. -/
structure HitResult where
  status : Nat
  body : RespBody
  store : List Page
  metrics : HitSeries
  deriving Repr, DecidableEq

/-- The POST body of `/api/pages` as seen by `request.get_json()`:
`none` for a missing/null JSON document, `some fields` for a JSON object
(field name to string value).  The guard at line 95,
`if not data or 'name' not in data`, rejects exactly the bodies with no
`"name"` field: `not data` covers `None` and the empty object, and an
empty object has no `"name"` field either. -/
def lookupField (fields : List (String × String)) (key : String) : Option String :=
  (fields.find? (fun f => f.1 == key)).map (fun f => f.2)

/-- Handler `create_page` (`main.py` lines 92-105, POST `/api/pages`):
reject bodies without a `"name"` field with 400, otherwise assign
`page_id = len(pages_data) + 1`, store `{id, name, hits: 0, created_at}`
and return it with 201. -/
def create_page (store : List Page) (body : Option (List (String × String)))
    (now : Nat) : StoreResult :=
  match body with
  | none => ⟨400, .errorMsg "name required", store⟩
  | some fields =>
    match lookupField fields "name" with
    | none => ⟨400, .errorMsg "name required", store⟩
    | some nm =>
      let pid := store.length + 1
      let p : Page := ⟨pid, nm, 0, now⟩
      ⟨201, .pageJson p, dictInsert store p⟩

/-- Handler `get_pages` (`main.py` lines 88-90, GET `/api/pages`):
`list(pages_data.values())` in insertion order, status 200. -/
def get_pages (store : List Page) : Nat × RespBody :=
  (200, .pageList store)

/-- Handler `get_hits` (`main.py` lines 107-111, GET `/api/pages/{id}/hits`):
404 for an unknown id, else the page's hit count. -/
def get_hits (store : List Page) (pid : Nat) : Nat × RespBody :=
  match findPage store pid with
  | none => (404, .errorMsg "page not found")
  | some p => (200, .hitsJson p.hits)

/-- The store update `pages_data[page_id]['hits'] += 1` (`main.py` line
118), expressed entry-wise: bump the entry whose key matches.  Page ids
are unique in every reachable store (dict keys are unique), so this
touches exactly the entry at key `pid`. -/
def bumpHits (pid : Nat) (q : Page) : Page :=
  if q.id == pid then { q with hits := q.hits + 1 } else q

/-- Handler `increment_hit` (`main.py` lines 113-125, POST
`/api/pages/{id}/hit`): 404 for an unknown id (no store or metric change);
else bump the page's `hits` by 1, bump `page_hits_total{page_name}`, and
return the updated record with 200. -/
def increment_hit (store : List Page) (pid : Nat) (m : HitSeries) : HitResult :=
  match findPage store pid with
  | none => ⟨404, .errorMsg "page not found", store, m⟩
  | some p =>
    let p' : Page := { p with hits := p.hits + 1 }
    ⟨200, .pageJson p', store.map (bumpHits pid), counterInc m p'.name⟩

/-- The correlation id chosen by `before_request` (`main.py` line 48):
`request.headers.get('X-Request-ID', f"req-{datetime.now().timestamp()}")`.
`headers.get` falls back to the default only when the header is absent;
a present header is used verbatim, empty or not.  `ts` is the rendered
current timestamp. -/
def before_request_id (header : Option String) (ts : String) : String :=
  match header with
  | some v => v
  | none => "req-" ++ ts

/-- Python `s.split(sep)` for a single-character separator: split at every
occurrence, keeping empty pieces (`''.split('/') == ['']`,
`'/'.split('/') == ['', '']`). -/
def splitChar (sep : Char) : List Char → List (List Char)
  | [] => [[]]
  | c :: cs =>
    if c = sep then
      [] :: splitChar sep cs
    else
      match splitChar sep cs with
      | [] => [[c]]
      | s :: rest => (c :: s) :: rest

/-- The `endpoint` metric label of `after_request` (`main.py` line 59):
`request.path.split('/')[1] or 'root'`.  Flask request paths always start
with `'/'`, so the split has an element at index 1; Python's `or` replaces
an empty (falsy) string by `'root'`. -/
def after_request_endpoint (path : String) : String :=
  let seg : String := ⟨(splitChar '/' path.data).getD 1 []⟩
  if seg = "" then "root" else seg

/-- Modelled from the spec's words (for comparison with
`after_request_endpoint`): "the `endpoint` label is derived from the first
path segment", where the first path segment of a URL path is the text
between the leading slash and the next slash. -/
def firstPathSegment (path : String) : String :=
  ⟨(splitChar '/' path.data).getD 1 []⟩

/-- Step read by `create_page` at line 98, in isolation:
`page_id = len(pages_data) + 1`.  Under concurrent requests this read and
the write below interleave. -/
def create_read_id (store : List Page) : Nat :=
  store.length + 1

/-- Step write by `create_page` at lines 99-104, in isolation:
`pages_data[page_id] = {...}` with `hits = 0`. -/
def create_write (store : List Page) (pid : Nat) (nm : String) (now : Nat) :
    List Page :=
  dictInsert store ⟨pid, nm, 0, now⟩

/-- One API operation against the page store, as dispatched by the four
JSON routes of `main.py`. -/
inductive Op where
  | createReq : Option (List (String × String)) → Nat → Op
  | listReq : Op
  | hitsReq : Nat → Op
  | incReq : Nat → Op
  deriving Repr, DecidableEq

/-- The store after handling one request (the other components of the
handler results do not feed back into `pages_data`). -/
def step (s : List Page) : Op → List Page
  | .createReq body now => (create_page s body now).store
  | .listReq => s
  | .hitsReq _ => s
  | .incReq pid => (increment_hit s pid []).store

/-- The store after handling a sequence of requests, in order. -/
def run (s : List Page) : List Op → List Page
  | [] => s
  | op :: ops => run (step s op) ops

/-- The store's shape invariant: the ids are exactly `1, 2, ..., length`
in insertion order.  This holds for the initial `pages_data` and is kept
by every handler (ids are dict keys, hence unique, and `create_page`
always appends key `len + 1`). -/
abbrev wellFormed (s : List Page) : Prop :=
  s.map Page.id = List.range' 1 s.length

/-- The page `p` survived into the lookup result `r`: the result holds a
page with the same id and name whose hit count has not decreased. -/
def pageMono (p : Page) (r : Option Page) : Prop :=
  match r with
  | none => False
  | some q => q.id = p.id ∧ q.name = p.name ∧ p.hits ≤ q.hits

instance (p : Page) (r : Option Page) : Decidable (pageMono p r) :=
  match r with
  | none => isFalse (fun h => h)
  | some q =>
    inferInstanceAs (Decidable (q.id = p.id ∧ q.name = p.name ∧ p.hits ≤ q.hits))

/-! ## Helper lemmas -/

theorem bumpHits_id (pid : Nat) (q : Page) : (bumpHits pid q).id = q.id := by
  unfold bumpHits
  split <;> rfl

theorem bumpHits_name (pid : Nat) (q : Page) : (bumpHits pid q).name = q.name := by
  unfold bumpHits
  split <;> rfl

theorem hits_le_bumpHits (pid : Nat) (q : Page) : q.hits ≤ (bumpHits pid q).hits := by
  unfold bumpHits
  split <;> simp

theorem findPage_map_bumpHits (s : List Page) (pid k : Nat) :
    findPage (s.map (bumpHits pid)) k = (findPage s k).map (bumpHits pid) := by
  have hpred : ((fun q : Page => q.id == k) ∘ bumpHits pid) = fun q : Page => q.id == k := by
    funext q
    show ((bumpHits pid q).id == k) = (q.id == k)
    rw [bumpHits_id]
  rw [findPage, findPage, List.find?_map, hpred]

theorem wellFormed_pages_data (t0 : Nat) : wellFormed (pages_data t0) := rfl

theorem wf_not_contains_fresh (s : List Page) (hwf : wellFormed s) :
    s.any (fun q => q.id == s.length + 1) = false := by
  by_contra h
  rw [Bool.not_eq_false, List.any_eq_true] at h
  obtain ⟨q, hq, hid⟩ := h
  have hmem : q.id ∈ s.map Page.id := List.mem_map_of_mem _ hq
  rw [hwf, List.mem_range'_1] at hmem
  have : q.id = s.length + 1 := by simpa using hid
  omega

theorem dictInsert_fresh (s : List Page) (hwf : wellFormed s) (p : Page)
    (hp : p.id = s.length + 1) : dictInsert s p = s ++ [p] := by
  have h := wf_not_contains_fresh s hwf
  simp only [dictInsert, hp, h]
  simp

theorem wellFormed_append (s : List Page) (hwf : wellFormed s) (p : Page)
    (hp : p.id = s.length + 1) : wellFormed (s ++ [p]) := by
  show (s ++ [p]).map Page.id = List.range' 1 (s ++ [p]).length
  rw [List.map_append, List.length_append, hwf]
  simp only [List.map_cons, List.map_nil, List.length_cons, List.length_nil]
  rw [hp]
  rw [List.range'_concat]
  have h1 : 1 + 1 * s.length = s.length + 1 := by omega
  rw [h1]

theorem create_page_found (s : List Page) (fields : List (String × String))
    (nm : String) (now : Nat) (hwf : wellFormed s)
    (hname : lookupField fields "name" = some nm) :
    create_page s (some fields) now =
      ⟨201, .pageJson ⟨s.length + 1, nm, 0, now⟩, s ++ [⟨s.length + 1, nm, 0, now⟩]⟩ := by
  simp only [create_page, hname]
  rw [dictInsert_fresh s hwf _ rfl]

theorem find?_append_some {α : Type} (f : α → Bool) {l₁ l₂ : List α} {a : α}
    (h : l₁.find? f = some a) : (l₁ ++ l₂).find? f = some a := by
  rw [List.find?_append, h]
  rfl

theorem increment_hit_found (s : List Page) (pid : Nat) (m : HitSeries) (p : Page)
    (hp : findPage s pid = some p) :
    increment_hit s pid m =
      ⟨200, .pageJson { p with hits := p.hits + 1 }, s.map (bumpHits pid),
        counterInc m p.name⟩ := by
  simp only [increment_hit, hp]

theorem step_preserves_wellFormed (s : List Page) (op : Op) (hwf : wellFormed s) :
    wellFormed (step s op) := by
  cases op with
  | createReq body now =>
    cases body with
    | none => exact hwf
    | some fields =>
      cases hname : lookupField fields "name" with
      | none =>
        show wellFormed (create_page s (some fields) now).store
        simp only [create_page, hname]
        exact hwf
      | some nm =>
        show wellFormed (create_page s (some fields) now).store
        rw [create_page_found s fields nm now hwf hname]
        exact wellFormed_append s hwf _ rfl
  | listReq => exact hwf
  | hitsReq pid => exact hwf
  | incReq pid =>
    show wellFormed (increment_hit s pid []).store
    cases hfind : findPage s pid with
    | none =>
      simp only [increment_hit, hfind]
      exact hwf
    | some p =>
      rw [increment_hit_found s pid [] p hfind]
      show (s.map (bumpHits pid)).map Page.id = List.range' 1 (s.map (bumpHits pid)).length
      rw [List.map_map, List.length_map]
      have hcomp : (Page.id ∘ bumpHits pid) = Page.id := by
        funext q
        exact bumpHits_id pid q
      rw [hcomp]
      exact hwf

theorem step_mono (s : List Page) (op : Op) (k : Nat) (p : Page)
    (hwf : wellFormed s) (hp : findPage s k = some p) :
    ∃ q, findPage (step s op) k = some q ∧ q.id = p.id ∧ q.name = p.name ∧
      p.hits ≤ q.hits := by
  cases op with
  | createReq body now =>
    cases body with
    | none => exact ⟨p, hp, rfl, rfl, Nat.le_refl _⟩
    | some fields =>
      cases hname : lookupField fields "name" with
      | none =>
        refine ⟨p, ?_, rfl, rfl, Nat.le_refl _⟩
        show findPage (create_page s (some fields) now).store k = some p
        simp only [create_page, hname]
        exact hp
      | some nm =>
        refine ⟨p, ?_, rfl, rfl, Nat.le_refl _⟩
        show findPage (create_page s (some fields) now).store k = some p
        rw [create_page_found s fields nm now hwf hname]
        exact find?_append_some _ hp
  | listReq => exact ⟨p, hp, rfl, rfl, Nat.le_refl _⟩
  | hitsReq pid => exact ⟨p, hp, rfl, rfl, Nat.le_refl _⟩
  | incReq pid =>
    cases hfind : findPage s pid with
    | none =>
      refine ⟨p, ?_, rfl, rfl, Nat.le_refl _⟩
      show findPage (increment_hit s pid []).store k = some p
      simp only [increment_hit, hfind]
      exact hp
    | some r =>
      refine ⟨bumpHits pid p, ?_, bumpHits_id pid p, bumpHits_name pid p,
        hits_le_bumpHits pid p⟩
      show findPage (increment_hit s pid []).store k = some (bumpHits pid p)
      rw [increment_hit_found s pid [] r hfind, findPage_map_bumpHits, hp]
      rfl

theorem run_mono (ops : List Op) (s : List Page) (k : Nat) (p : Page)
    (hwf : wellFormed s) (hp : findPage s k = some p) :
    ∃ q, findPage (run s ops) k = some q ∧ q.id = p.id ∧ q.name = p.name ∧
      p.hits ≤ q.hits := by
  induction ops generalizing s p with
  | nil => exact ⟨p, hp, rfl, rfl, Nat.le_refl _⟩
  | cons op ops ih =>
    obtain ⟨q, hq, h1, h2, h3⟩ := step_mono s op k p hwf hp
    obtain ⟨q', hq', h1', h2', h3'⟩ :=
      ih (step s op) q (step_preserves_wellFormed s op hwf) hq
    exact ⟨q', hq', h1'.trans h1, h2'.trans h2, h3.trans h3'⟩

/-! ## Claim theorems -/

/-- Claim C1, counterexample: the claim says a POST with an empty-string
`name` is rejected with 400 and leaves the store unchanged, but the guard
`if not data or 'name' not in data` accepts `{"name": ""}`: the handler
returns 201 and appends a sixteenth page. -/
theorem create_accepts_empty_name_cex :
    (create_page (pages_data 0) (some [("name", "")]) 0).status = 201
    ∧ (create_page (pages_data 0) (some [("name", "")]) 0).store.length = 16
    ∧ ¬ ((create_page (pages_data 0) (some [("name", "")]) 0).status = 400
        ∧ (create_page (pages_data 0) (some [("name", "")]) 0).store = pages_data 0) := by
  decide

/-- Claim C1, amended: a POST whose JSON body is missing or has no
`"name"` field yields 400 with an error body and leaves the store
unchanged; a present-but-empty `"name"` is accepted: 201 and a page with
the empty name is appended. -/
theorem create_rejects_missing_name (s : List Page)
    (fields : List (String × String)) (now : Nat) (hwf : wellFormed s)
    (hnone : lookupField fields "name" = none) :
    create_page s none now = ⟨400, .errorMsg "name required", s⟩
    ∧ create_page s (some fields) now = ⟨400, .errorMsg "name required", s⟩
    ∧ create_page s (some [("name", "")]) now
        = ⟨201, .pageJson ⟨s.length + 1, "", 0, now⟩,
            s ++ [⟨s.length + 1, "", 0, now⟩]⟩ := by
  refine ⟨rfl, ?_, ?_⟩
  · simp only [create_page, hnone]
  · exact create_page_found s [("name", "")] "" now hwf rfl

/-- Claim C1, witness: the amended theorem applied to the fresh store and
a body `{"other": "x"}` without a `name` field. -/
theorem create_rejects_missing_name_witness :
    wellFormed (pages_data 0)
    ∧ lookupField [("other", "x")] "name" = none
    ∧ (create_page (pages_data 0) none 7 = ⟨400, .errorMsg "name required", pages_data 0⟩
        ∧ create_page (pages_data 0) (some [("other", "x")]) 7
            = ⟨400, .errorMsg "name required", pages_data 0⟩
        ∧ create_page (pages_data 0) (some [("name", "")]) 7
            = ⟨201, .pageJson ⟨16, "", 0, 7⟩, pages_data 0 ++ [⟨16, "", 0, 7⟩]⟩) :=
  ⟨by decide, by decide,
    create_rejects_missing_name (pages_data 0) [("other", "x")] 7 (by decide) (by decide)⟩

/-- Claim C2, counterexample: the claim says the first POST on a freshly
started instance returns the page `{id: 1, name: "Homepage", hits: 0}`,
but the store starts with 15 pre-populated pages, so `len(pages_data) + 1`
is 16, not 1. -/
theorem first_create_id_cex :
    (create_page (pages_data 0) (some [("name", "Homepage")]) 0).status = 201
    ∧ (create_page (pages_data 0) (some [("name", "Homepage")]) 0).body
        = .pageJson ⟨16, "Homepage", 0, 0⟩
    ∧ RespBody.pageJson (⟨16, "Homepage", 0, 0⟩ : Page)
        ≠ .pageJson ⟨1, "Homepage", 0, 0⟩ := by
  decide

/-- Claim C2, amended: every successful create on a well-formed store
assigns id `len(store) + 1` (one greater than the previously assigned id),
initializes `hits = 0`, stores the page and returns it with 201; a second
create then gets id `len + 2`.  On a freshly started instance the store
already holds 15 pages, so the first created page gets id 16, not 1. -/
theorem create_assigns_sequential_ids (s : List Page)
    (fields fields2 : List (String × String)) (nm nm2 : String)
    (now now2 t0 : Nat) (hwf : wellFormed s)
    (h1 : lookupField fields "name" = some nm)
    (h2 : lookupField fields2 "name" = some nm2) :
    create_page s (some fields) now
      = ⟨201, .pageJson ⟨s.length + 1, nm, 0, now⟩, s ++ [⟨s.length + 1, nm, 0, now⟩]⟩
    ∧ (create_page (create_page s (some fields) now).store (some fields2) now2).body
        = .pageJson ⟨s.length + 2, nm2, 0, now2⟩
    ∧ (create_page (pages_data t0) (some fields) now).body
        = .pageJson ⟨16, nm, 0, now⟩ := by
  have hfst := create_page_found s fields nm now hwf h1
  refine ⟨hfst, ?_, ?_⟩
  · rw [hfst]
    have hwf' : wellFormed (s ++ [(⟨s.length + 1, nm, 0, now⟩ : Page)]) :=
      wellFormed_append s hwf _ rfl
    rw [create_page_found _ fields2 nm2 now2 hwf' h2]
    simp
  · rw [create_page_found (pages_data t0) fields nm now (wellFormed_pages_data t0) h1]
    rfl

/-- Claim C2, witness: two consecutive creates on the fresh store get ids
16 and 17. -/
theorem create_assigns_sequential_ids_witness :
    wellFormed (pages_data 0)
    ∧ lookupField [("name", "Homepage")] "name" = some "Homepage"
    ∧ lookupField [("name", "Blog")] "name" = some "Blog"
    ∧ (create_page (pages_data 0) (some [("name", "Homepage")]) 3
        = ⟨201, .pageJson ⟨16, "Homepage", 0, 3⟩, pages_data 0 ++ [⟨16, "Homepage", 0, 3⟩]⟩
      ∧ (create_page (create_page (pages_data 0) (some [("name", "Homepage")]) 3).store
          (some [("name", "Blog")]) 4).body = .pageJson ⟨17, "Blog", 0, 4⟩
      ∧ (create_page (pages_data 5) (some [("name", "Homepage")]) 3).body
          = .pageJson ⟨16, "Homepage", 0, 3⟩) :=
  ⟨by decide, by decide, by decide,
    create_assigns_sequential_ids (pages_data 0) [("name", "Homepage")] [("name", "Blog")]
      "Homepage" "Blog" 3 4 5 (by decide) (by decide) (by decide)⟩

/-- Claim C3: before any request, the store already holds exactly 15
pre-populated pages with ids 1..15 and non-zero hit counts; GET
`/api/pages` therefore returns those 15 records, and the first page
created afterwards receives id `len(store) + 1 = 16`. -/
theorem initial_store_prepopulated (t0 now : Nat) (nm : String) :
    (pages_data t0).length = 15
    ∧ (pages_data t0).map Page.id = List.range' 1 15
    ∧ (pages_data t0).map Page.hits
        = [4850, 1320, 2940, 6780, 1150, 620, 310, 245, 230, 410, 180, 260, 140, 195, 85]
    ∧ (pages_data t0).all (fun p => p.hits != 0) = true
    ∧ get_pages (pages_data t0) = (200, .pageList (pages_data t0))
    ∧ (create_page (pages_data t0) (some [("name", nm)]) now).status = 201
    ∧ (create_page (pages_data t0) (some [("name", nm)]) now).body
        = .pageJson ⟨16, nm, 0, now⟩ :=
  ⟨rfl, rfl, rfl, rfl, rfl, rfl, rfl⟩

/-- Claim C4: for a page id absent from the store, GET
`/api/pages/{id}/hits` and POST `/api/pages/{id}/hit` both return 404 with
the body `{"error": "page not found"}`, the store is unchanged, and the
`page_hits_total` metric state is untouched (no series created or
incremented). -/
theorem unknown_id_yields_404 (s : List Page) (pid : Nat) (m : HitSeries)
    (h : findPage s pid = none) :
    get_hits s pid = (404, .errorMsg "page not found")
    ∧ increment_hit s pid m = ⟨404, .errorMsg "page not found", s, m⟩ := by
  constructor
  · simp only [get_hits, h]
  · simp only [increment_hit, h]

/-- Claim C4, witness: id 999 on the fresh store, with an existing
`page_hits_total` series left untouched. -/
theorem unknown_id_yields_404_witness :
    findPage (pages_data 0) 999 = none
    ∧ (get_hits (pages_data 0) 999 = (404, .errorMsg "page not found")
      ∧ increment_hit (pages_data 0) 999 [("Home page", 3)]
          = ⟨404, .errorMsg "page not found", pages_data 0, [("Home page", 3)]⟩) :=
  ⟨by decide, unknown_id_yields_404 (pages_data 0) 999 [("Home page", 3)] (by decide)⟩

/-- Claim C5: for a page id present in the store, POST
`/api/pages/{id}/hit` returns 200 with the updated record whose `hits` is
exactly the old value plus one, and the stored page reflects the same
increment. -/
theorem increment_hit_increments_by_one (s : List Page) (pid : Nat)
    (m : HitSeries) (p : Page) (hp : findPage s pid = some p) :
    (increment_hit s pid m).status = 200
    ∧ (increment_hit s pid m).body = .pageJson { p with hits := p.hits + 1 }
    ∧ findPage (increment_hit s pid m).store pid = some { p with hits := p.hits + 1 } := by
  have hp' : List.find? (fun q => q.id == pid) s = some p := hp
  have hid : (p.id == pid) = true :=
    @List.find?_some Page (fun q => q.id == pid) p s hp'
  refine ⟨?_, ?_, ?_⟩
  · simp only [increment_hit, hp]
  · simp only [increment_hit, hp]
  · rw [increment_hit_found s pid m p hp]
    show findPage (s.map (bumpHits pid)) pid = some { p with hits := p.hits + 1 }
    rw [findPage_map_bumpHits, hp]
    show some (bumpHits pid p) = some { p with hits := p.hits + 1 }
    unfold bumpHits
    rw [if_pos hid]

/-- Claim C5, witness: hitting page 2 of the fresh store takes its count
from 1320 to 1321. -/
theorem increment_hit_increments_by_one_witness :
    findPage (pages_data 0) 2 = some ⟨2, "Login / Sign up", 1320, 0⟩
    ∧ ((increment_hit (pages_data 0) 2 []).status = 200
      ∧ (increment_hit (pages_data 0) 2 []).body
          = .pageJson ⟨2, "Login / Sign up", 1321, 0⟩
      ∧ findPage (increment_hit (pages_data 0) 2 []).store 2
          = some ⟨2, "Login / Sign up", 1321, 0⟩) :=
  ⟨by decide,
    increment_hit_increments_by_one (pages_data 0) 2 [] ⟨2, "Login / Sign up", 1320, 0⟩
      (by decide)⟩

/-- Claim C6: starting from any well-formed store (as the initial
`pages_data` is), after any sequence of create/list/getHits/incrementHit
requests, every page that was present is still present under its id with
the same id and name, and its hit count has not decreased. -/
theorem page_invariants_preserved (s : List Page) (ops : List Op) (k : Nat)
    (p : Page) (hwf : wellFormed s) (hp : findPage s k = some p) :
    pageMono p (findPage (run s ops) k) := by
  obtain ⟨q, hq, hid, hname, hhits⟩ := run_mono ops s k p hwf hp
  rw [hq]
  exact ⟨hid, hname, hhits⟩

/-- Claim C6, witness: page 1 of the fresh store survives a hit, a create,
a read and a list with its id and name intact and its count not lower. -/
theorem page_invariants_preserved_witness :
    wellFormed (pages_data 0)
    ∧ findPage (pages_data 0) 1 = some ⟨1, "Home page", 4850, 0⟩
    ∧ pageMono ⟨1, "Home page", 4850, 0⟩
        (findPage (run (pages_data 0)
          [Op.incReq 1, Op.createReq (some [("name", "Blog")]) 3,
            Op.hitsReq 7, Op.incReq 1, Op.listReq]) 1) :=
  ⟨by decide, by decide,
    page_invariants_preserved (pages_data 0)
      [Op.incReq 1, Op.createReq (some [("name", "Blog")]) 3,
        Op.hitsReq 7, Op.incReq 1, Op.listReq] 1 ⟨1, "Home page", 4850, 0⟩
      (by decide) (by decide)⟩

/-- Claim C7, counterexample: the claim says a present-but-empty
`X-Request-ID` header leads to a synthesized `req-<timestamp>` id, but
`headers.get(key, default)` falls back only when the header is absent, so
the empty string itself becomes the correlation id. -/
theorem empty_request_id_header_cex :
    before_request_id (some "") "1728.5" = ""
    ∧ ("" : String) ≠ "req-" ++ "1728.5" := by
  decide

/-- Claim C7, amended: a present `X-Request-ID` header is used verbatim as
the correlation id, even when empty; only an absent header leads to a
synthesized `req-<timestamp>` id.  The request is never rejected for
lacking the header (an id is always produced). -/
theorem request_id_from_header_or_timestamp (v ts : String) :
    before_request_id (some v) ts = v
    ∧ before_request_id none ts = "req-" ++ ts :=
  ⟨rfl, rfl⟩

/-- Claim C8, counterexample: the claim says the `endpoint` label is the
first path segment for every request path, but for the root path `/` the
first segment is empty and the recorded label is the literal `root`. -/
theorem endpoint_label_root_cex :
    after_request_endpoint "/" = "root"
    ∧ firstPathSegment "/" = ""
    ∧ ("root" : String) ≠ "" := by
  decide

/-- Claim C8, amended: for every request path whose first segment is
non-empty, the `endpoint` label is exactly the first path segment
(`/api/pages/5/hit` is labeled `api`), bounding the label's cardinality;
an empty first segment is labeled `root` instead. -/
theorem endpoint_label_is_first_segment (path : String)
    (h : firstPathSegment path ≠ "") :
    after_request_endpoint path = firstPathSegment path
    ∧ after_request_endpoint "/api/pages/5/hit" = "api" := by
  constructor
  · simp only [after_request_endpoint, firstPathSegment] at h ⊢
    rw [if_neg h]
  · decide

/-- Claim C8, witness: the hit route's path is labeled `api`. -/
theorem endpoint_label_is_first_segment_witness :
    firstPathSegment "/api/pages/5/hit" ≠ ""
    ∧ (after_request_endpoint "/api/pages/5/hit" = firstPathSegment "/api/pages/5/hit"
      ∧ after_request_endpoint "/api/pages/5/hit" = "api") :=
  ⟨by decide, endpoint_label_is_first_segment "/api/pages/5/hit" (by decide)⟩

/-- Claim C9: a request path with an empty first segment (in particular
the root path `/`) gets the literal `endpoint` label `root`, never the
empty string. -/
theorem empty_first_segment_gives_root_label (path : String)
    (h : firstPathSegment path = "") :
    after_request_endpoint path = "root" := by
  simp only [after_request_endpoint, firstPathSegment] at h ⊢
  rw [if_pos h]

/-- Claim C9, witness: the root path. -/
theorem empty_first_segment_gives_root_label_witness :
    firstPathSegment "/" = "" ∧ after_request_endpoint "/" = "root" :=
  ⟨by decide, empty_first_segment_gives_root_label "/" (by decide)⟩

/-- Claim C10: two interleaved creates that both execute
`page_id = len(pages_data) + 1` (line 98) before either stores its page
(lines 99-104) both compute id 16 on the fresh store; the second write
overwrites the first, so two creates yield one new page (length 16, id 17
absent) and the surviving record is the second request's.  This exhibits
the duplicate-id race the claim (and spec section 9) is about. -/
theorem concurrent_creates_assign_duplicate_ids :
    create_read_id (pages_data 0) = 16
    ∧ (create_write (create_write (pages_data 0) 16 "Alpha" 0) 16 "Beta" 0).length = 16
    ∧ findPage (create_write (create_write (pages_data 0) 16 "Alpha" 0) 16 "Beta" 0) 16
        = some ⟨16, "Beta", 0, 0⟩
    ∧ findPage (create_write (create_write (pages_data 0) 16 "Alpha" 0) 16 "Beta" 0) 17
        = none := by
  decide

end HitCounter
